import Mathlib

/-!
Shallow embedding of the movie-catalog repository's core logic:
the MovieService filter/sort pipeline (src/unnamed/part_001), the
AllMoviesPage pagination state machine (src/unnamed/part_003), the URL
codec (src/movie-explorer-app/src/hooks/useCustomHooks.js, urlUtils part),
the useLocalStorage favorites persistence, and the favorites toggle
handlers.  JavaScript strings are modelled as Lean strings / char lists;
the ASCII-relevant fragment of the JS string operations (toLowerCase,
toUpperCase, trim, split, includes) is embedded explicitly.
-/

namespace MovieCatalog

/-- A movie record as it appears in the seed catalog (fallbackMovies in
src/unnamed/part_001).  Ratings in the source are decimals with one
fractional digit; they are represented scaled by ten (8.8 becomes 88) so
that the comparator arithmetic is exact. -/
structure Movie where
  id : Nat
  title : String
  year : Nat
  genre : List String
  rating : Nat
  poster : String
  description : String
  deriving DecidableEq

/-- ASCII model of JavaScript String.prototype.toLowerCase on one char:
uppercase letters map to lowercase, everything else is unchanged. -/
def jsLowerChar (c : Char) : Char :=
  match c with
  | 'A' => 'a'
  | 'B' => 'b'
  | 'C' => 'c'
  | 'D' => 'd'
  | 'E' => 'e'
  | 'F' => 'f'
  | 'G' => 'g'
  | 'H' => 'h'
  | 'I' => 'i'
  | 'J' => 'j'
  | 'K' => 'k'
  | 'L' => 'l'
  | 'M' => 'm'
  | 'N' => 'n'
  | 'O' => 'o'
  | 'P' => 'p'
  | 'Q' => 'q'
  | 'R' => 'r'
  | 'S' => 's'
  | 'T' => 't'
  | 'U' => 'u'
  | 'V' => 'v'
  | 'W' => 'w'
  | 'X' => 'x'
  | 'Y' => 'y'
  | 'Z' => 'z'
  | other => other

/-- ASCII model of JavaScript String.prototype.toUpperCase on one char. -/
def jsUpperChar (c : Char) : Char :=
  match c with
  | 'a' => 'A'
  | 'b' => 'B'
  | 'c' => 'C'
  | 'd' => 'D'
  | 'e' => 'E'
  | 'f' => 'F'
  | 'g' => 'G'
  | 'h' => 'H'
  | 'i' => 'I'
  | 'j' => 'J'
  | 'k' => 'K'
  | 'l' => 'L'
  | 'm' => 'M'
  | 'n' => 'N'
  | 'o' => 'O'
  | 'p' => 'P'
  | 'q' => 'Q'
  | 'r' => 'R'
  | 's' => 'S'
  | 't' => 'T'
  | 'u' => 'U'
  | 'v' => 'V'
  | 'w' => 'W'
  | 'x' => 'X'
  | 'y' => 'Y'
  | 'z' => 'Z'
  | other => other

/-- The ASCII whitespace characters recognised by JavaScript trim and by
the whitespace character class: space, tab, line feed, carriage return,
vertical tab, form feed. -/
def jsIsSpace (c : Char) : Bool :=
  c = ' ' || c = '\t' || c = '\n' || c = '\r' || c = Char.ofNat 11 || c = Char.ofNat 12

/-- Model of String.prototype.toLowerCase. -/
def lowerList (l : List Char) : List Char := l.map jsLowerChar

/-- Model of String.prototype.trim: strip whitespace from both ends. -/
def trimList (l : List Char) : List Char :=
  ((l.dropWhile jsIsSpace).reverse.dropWhile jsIsSpace).reverse

/-- Does the char list start with the given char list? -/
def startsWithSeq : List Char → List Char → Bool
  | _, [] => true
  | [], _ :: _ => false
  | c :: cs, d :: ds => (c = d) && startsWithSeq cs ds

/-- Model of String.prototype.includes: does `l` contain `sub` as a
contiguous subsequence? -/
def containsSeq : List Char → List Char → Bool
  | [], sub => sub.isEmpty
  | c :: rest, sub => startsWithSeq (c :: rest) sub || containsSeq rest sub

/-- Helper for the split models: accumulates the current token. -/
def splitPredAux (p : Char → Bool) : List Char → List Char → List (List Char)
  | [], acc => [acc.reverse]
  | c :: rest, acc =>
      if p c then acc.reverse :: splitPredAux p rest []
      else splitPredAux p rest (c :: acc)

/-- Split a char list at every char satisfying `p`, keeping empty pieces,
as JavaScript String.prototype.split does. -/
def splitPred (p : Char → Bool) (l : List Char) : List (List Char) :=
  splitPredAux p l []

/-- Model of JavaScript split with a one-char separator, as in
searchTerm.split of the single space character. -/
def splitOnSpace (l : List Char) : List (List Char) :=
  splitPred (fun c => c = ' ') l

/-- Code-unit order on char sequences: the comparison JavaScript uses
for the default Array.prototype.sort on strings, and (for ASCII data)
the order localeCompare induces. -/
def codeUnitLt : List Char → List Char → Bool
  | [], [] => false
  | [], _ :: _ => true
  | _ :: _, [] => false
  | a :: as, b :: bs =>
      if a.toNat < b.toNat then true
      else if b.toNat < a.toNat then false
      else codeUnitLt as bs

/-- String comparison for the sort comparators: a before-or-equal b. -/
def jsStrLe (a b : String) : Bool := !(codeUnitLt b.data a.data)

/-- Insert `x` into `l` before the first element `y` with `le x y`.
With `le x y` meaning that the comparator returns at most zero on
`(x, y)`, this is the insertion step of a stable sort. -/
def insertLe {α : Type} (le : α → α → Bool) (x : α) : List α → List α
  | [] => [x]
  | y :: ys => if le x y then x :: y :: ys else y :: insertLe le x ys

/-- Stable insertion sort, the embedding of ECMAScript
Array.prototype.sort (required stable) applied with a consistent
comparator `cmp`, where `le x y` stands for `cmp x y ≤ 0`. -/
def stableSort {α : Type} (le : α → α → Bool) : List α → List α
  | [] => []
  | x :: xs => insertLe le x (stableSort le xs)

/-- The eight-record seed catalog `fallbackMovies` of
src/unnamed/part_001 lines 97-172. -/
def fallbackMovies : List Movie :=
  [ { id := 1, title := "Inception", year := 2010,
      genre := ["Sci-Fi", "Action"], rating := 88,
      poster := "https://picsum.photos/200/300?random=1",
      description := "A thief who enters people\x27s dreams to steal secrets must perform inception on a business magnate\x27s son." },
    { id := 2, title := "The Dark Knight", year := 2008,
      genre := ["Action", "Drama"], rating := 90,
      poster := "https://picsum.photos/200/300?random=2",
      description := "Batman faces off against the Joker, a criminal mastermind bent on plunging Gotham into chaos." },
    { id := 3, title := "Interstellar", year := 2014,
      genre := ["Sci-Fi", "Drama"], rating := 86,
      poster := "https://picsum.photos/200/300?random=3",
      description := "A group of explorers travel through a wormhole in search of a new home for humanity." },
    { id := 4, title := "The Matrix", year := 1999,
      genre := ["Sci-Fi", "Action"], rating := 87,
      poster := "https://picsum.photos/200/300?random=4",
      description := "A hacker discovers the true nature of reality and begins a rebellion against its controllers." },
    { id := 5, title := "Parasite", year := 2019,
      genre := ["Drama", "Thriller"], rating := 86,
      poster := "https://picsum.photos/200/300?random=5",
      description := "A poor family infiltrates a wealthy household, leading to unexpected consequences." },
    { id := 6, title := "Avengers: Endgame", year := 2019,
      genre := ["Action", "Sci-Fi"], rating := 84,
      poster := "https://picsum.photos/200/300?random=6",
      description := "The Avengers assemble one final time to reverse the catastrophic events brought by Thanos." },
    { id := 7, title := "La La Land", year := 2016,
      genre := ["Romance", "Drama"], rating := 80,
      poster := "https://picsum.photos/200/300?random=7",
      description := "A jazz musician and an aspiring actress struggle to balance love and artistic ambition." },
    { id := 8, title := "Joker", year := 2019,
      genre := ["Drama", "Crime"], rating := 84,
      poster := "https://picsum.photos/200/300?random=8",
      description := "A mentally troubled comedian\x27s descent into darkness leads him to become Gotham\x27s criminal mastermind." } ]

/-- The MovieService instance fields: the loaded movie list and the
genre list computed once in the constructor. -/
structure MovieServiceState where
  movies : List Movie
  genres : List String
  deriving DecidableEq

/-- MovieService.extractUniqueGenres: flatten every record's genre list
into a JS Set (first-occurrence order), then Array.from(...).sort()
(default lexicographic string sort). -/
def extractUniqueGenres (movies : List Movie) : List String :=
  let collected := movies.foldl
    (fun acc m => m.genre.foldl (fun a g => if a.contains g then a else a ++ [g]) acc) []
  stableSort (fun a b : String => jsStrLe a b) collected

/-- The singleton movieService built on the seed catalog.  The JSON
file data/movies.json is not part of the provided sources; the
constructor falls back to fallbackMovies in that case, which is also the
catalog the spec's scenarios are stated over. -/
def movieServiceSeed : MovieServiceState :=
  { movies := fallbackMovies, genres := extractUniqueGenres fallbackMovies }

/-- MovieService.getAllMovies: returns a (defensive copy of) the stored
list. -/
def getAllMovies (s : MovieServiceState) : List Movie := s.movies

/-- The record predicate inside MovieService.searchMovies: the lowercased
title contains the normalized term, or some piece of the term obtained by
splitting on single spaces is a substring of the title and is longer than
two chars. -/
def movieMatchesSearch (searchTerm : List Char) (m : Movie) : Bool :=
  let title := lowerList m.title.data
  containsSeq title searchTerm ||
    (splitOnSpace searchTerm).any (fun word => containsSeq title word && word.length > 2)

/-- MovieService.searchMovies (src/unnamed/part_001 lines 235-256): empty
or all-whitespace query returns every movie; otherwise the query is
lowercased and trimmed and the records are filtered by
movieMatchesSearch. -/
def searchMovies (s : MovieServiceState) (query : String) : List Movie :=
  if query = "" || trimList query.data = [] then getAllMovies s
  else
    let searchTerm := trimList (lowerList query.data)
    s.movies.filter (movieMatchesSearch searchTerm)

/-- MovieService.filterByGenre: falsy or "all" genre is a no-op,
otherwise keep records whose genre list contains the genre exactly. -/
def filterByGenre (genre : String) (movies : List Movie) : List Movie :=
  if genre = "" ∨ genre = "all" then movies
  else movies.filter (fun m => m.genre.contains genre)

/-- MovieService.sortMovies (src/unnamed/part_001 lines 280-301): copies
the list and sorts it with the comparator selected by the sort key;
unknown keys return the copy unsorted.  String order models
localeCompare restricted to ASCII titles. -/
def sortMovies (movies : List Movie) (sortBy : String) : List Movie :=
  if sortBy = "title" then stableSort (fun a b => jsStrLe a.title b.title) movies
  else if sortBy = "year" then stableSort (fun a b => decide (b.year ≤ a.year)) movies
  else if sortBy = "rating" then stableSort (fun a b => decide (a.rating ≤ b.rating)) movies
  else if sortBy = "rating-desc" then stableSort (fun a b => decide (b.rating ≤ a.rating)) movies
  else movies

/-- The option object taken by MovieService.getFilteredMovies, with the
source's default values. -/
structure FilterOptions where
  search : String := ""
  genre : String := "all"
  sort : String := "rating-desc"
  deriving DecidableEq

/-- MovieService.getFilteredMovies (src/unnamed/part_001 lines 313-330):
search filter (only when the search string is truthy), then genre filter
(only when truthy and not "all"), then sort. -/
def getFilteredMovies (s : MovieServiceState) (o : FilterOptions) : List Movie :=
  let filtered := getAllMovies s
  let filtered := if o.search ≠ "" then searchMovies s o.search else filtered
  let filtered := if o.genre ≠ "" ∧ o.genre ≠ "all" then filterByGenre o.genre filtered else filtered
  sortMovies filtered o.sort

/-- The user-visible state of the AllMoviesPage component
(src/unnamed/part_003), restricted to the fields the filter/pagination
logic reads or writes. -/
structure PageState where
  searchQuery : String
  selectedGenre : String
  sortBy : String
  paginationMode : String
  currentPage : Nat
  displayCount : Nat
  hasMoreMovies : Bool
  filteredMovies : List Movie
  deriving DecidableEq

/-- The useState initial values of AllMoviesPage. -/
def allMoviesInit : PageState :=
  { searchQuery := "", selectedGenre := "all", sortBy := "rating-desc",
    paginationMode := "infinite", currentPage := 1, displayCount := 12,
    hasMoreMovies := true, filteredMovies := [] }

/-- The filter effect of AllMoviesPage (src/unnamed/part_003 lines
67-82); it runs whenever searchQuery, selectedGenre, sortBy or
paginationMode changes: recompute filteredMovies and, depending on the
pagination mode, reset the infinite-scroll window or the current page. -/
def runFilterEffect (svc : MovieServiceState) (s : PageState) : PageState :=
  let filtered := getFilteredMovies svc
    { search := s.searchQuery, genre := s.selectedGenre, sort := s.sortBy }
  if s.paginationMode = "infinite" then
    { s with filteredMovies := filtered, displayCount := 12,
             hasMoreMovies := decide (filtered.length > 12) }
  else
    { s with filteredMovies := filtered, currentPage := 1 }

/-- handleSortChange followed by the filter effect it triggers. -/
def setSortBy (svc : MovieServiceState) (s : PageState) (key : String) : PageState :=
  runFilterEffect svc { s with sortBy := key }

/-- handleGenreChange followed by the filter effect it triggers. -/
def setSelectedGenre (svc : MovieServiceState) (s : PageState) (g : String) : PageState :=
  runFilterEffect svc { s with selectedGenre := g }

/-- A change of the searchQuery prop followed by the filter effect it
triggers. -/
def setSearchQuery (svc : MovieServiceState) (s : PageState) (q : String) : PageState :=
  runFilterEffect svc { s with searchQuery := q }

/-- handlePaginationModeChange (src/unnamed/part_003 lines 129-137): set
the mode, reset the window or page, and rerun the filter effect (the
mode is one of its dependencies). -/
def handlePaginationModeChange (svc : MovieServiceState) (s : PageState) (mode : String) : PageState :=
  let s1 := { s with paginationMode := mode }
  let s2 :=
    if mode = "infinite" then
      { s1 with displayCount := 12, hasMoreMovies := decide (s1.filteredMovies.length > 12) }
    else
      { s1 with currentPage := 1 }
  runFilterEffect svc s2

/-- handlePageChange: store the requested page (the scroll call is
outside the model). -/
def handlePageChange (s : PageState) (page : Nat) : PageState :=
  { s with currentPage := page }

/-- handleLoadMore (src/unnamed/part_003 lines 106-110): grow the
infinite-scroll window by twelve and recompute the hasMore flag. -/
def handleLoadMore (s : PageState) : PageState :=
  { s with displayCount := s.displayCount + 12,
           hasMoreMovies := decide (s.filteredMovies.length > s.displayCount + 12) }

/-- The moviesPerPage constant of AllMoviesPage. -/
def moviesPerPage : Nat := 12

/-- The displayedMovies memo (src/unnamed/part_003 lines 38-46): the
first displayCount records in infinite mode, or the slice
[(page-1)*12, page*12) in paged mode. -/
def displayedMovies (s : PageState) : List Movie :=
  if s.paginationMode = "infinite" then s.filteredMovies.take s.displayCount
  else ((s.filteredMovies.drop ((s.currentPage - 1) * moviesPerPage)).take moviesPerPage)

/-- The totalPages memo (src/unnamed/part_003 lines 48-50):
Math.ceil(filteredMovies.length / moviesPerPage), written with natural
division.  Note the source applies no lower bound. -/
def totalPages (s : PageState) : Nat :=
  (s.filteredMovies.length + (moviesPerPage - 1)) / moviesPerPage

/-- UTF-8 bytes of a char, used by the encodeURIComponent and
decodeURIComponent models. -/
def utf8Bytes (c : Char) : List Nat :=
  let n := c.toNat
  if n < 128 then [n]
  else if n < 2048 then [192 + n / 64, 128 + n % 64]
  else if n < 65536 then [224 + n / 4096, 128 + (n / 64) % 64, 128 + n % 64]
  else [240 + n / 262144, 128 + (n / 4096) % 64, 128 + (n / 64) % 64, 128 + n % 64]

/-- The chars encodeURIComponent leaves unescaped: letters, digits and
the marks - _ . ! ~ * quote ( ). -/
def isUnescapedURIChar (c : Char) : Bool :=
  c.isAlpha || c.isDigit || c = '-' || c = '_' || c = '.' || c = '!' ||
    c = '~' || c = '*' || c = Char.ofNat 39 || c = '(' || c = ')'

/-- Uppercase hex digit, for percent escapes. -/
def hexDigitChar (n : Nat) : Char :=
  if n < 10 then Char.ofNat (48 + n) else Char.ofNat (55 + n)

/-- Model of encodeURIComponent: percent-encode the UTF-8 bytes of every
char outside the unescaped set. -/
def encodeURIComponentList (l : List Char) : List Char :=
  l.foldr
    (fun c acc =>
      (if isUnescapedURIChar c then [c]
       else (utf8Bytes c).foldr
         (fun b acc2 => '%' :: hexDigitChar (b / 16) :: hexDigitChar (b % 16) :: acc2) []) ++ acc)
    []

/-- Value of a hex digit char, either case; none for non-hex chars. -/
def hexVal (c : Char) : Option Nat :=
  if '0' ≤ c ∧ c ≤ '9' then some (c.toNat - 48)
  else if 'A' ≤ c ∧ c ≤ 'F' then some (c.toNat - 55)
  else if 'a' ≤ c ∧ c ≤ 'f' then some (c.toNat - 87)
  else none

/-- First phase of decodeURIComponent: turn the text into a byte
sequence, reading %XX escapes and taking the UTF-8 bytes of literal
chars; none on a malformed escape (the URIError case). -/
def percentDecode : List Char → Option (List Nat)
  | [] => some []
  | '%' :: a :: b :: rest =>
      match hexVal a, hexVal b with
      | some x, some y => (percentDecode rest).map (fun bs => (16 * x + y) :: bs)
      | _, _ => none
  | '%' :: _ => none
  | c :: rest => (percentDecode rest).map (fun bs => utf8Bytes c ++ bs)

/-- Second phase of decodeURIComponent: UTF-8 decoding with the usual
validity checks (fuel-indexed; the fuel is the byte count).  none models
a thrown URIError. -/
def utf8DecodeAux : Nat → List Nat → Option (List Char)
  | _, [] => some []
  | 0, _ :: _ => none
  | fuel + 1, b :: rest =>
    if b < 128 then (utf8DecodeAux fuel rest).map (fun cs => Char.ofNat b :: cs)
    else if b < 192 then none
    else if b < 224 then
      match rest with
      | b2 :: rest2 =>
        if 128 ≤ b2 ∧ b2 < 192 then
          let n := (b - 192) * 64 + (b2 - 128)
          if n < 128 then none
          else (utf8DecodeAux fuel rest2).map (fun cs => Char.ofNat n :: cs)
        else none
      | [] => none
    else if b < 240 then
      match rest with
      | b2 :: b3 :: rest3 =>
        if (128 ≤ b2 ∧ b2 < 192) ∧ (128 ≤ b3 ∧ b3 < 192) then
          let n := (b - 224) * 4096 + (b2 - 128) * 64 + (b3 - 128)
          if n < 2048 ∨ (55296 ≤ n ∧ n ≤ 57343) then none
          else (utf8DecodeAux fuel rest3).map (fun cs => Char.ofNat n :: cs)
        else none
      | _ => none
    else if b < 248 then
      match rest with
      | b2 :: b3 :: b4 :: rest4 =>
        if (128 ≤ b2 ∧ b2 < 192) ∧ (128 ≤ b3 ∧ b3 < 192) ∧ (128 ≤ b4 ∧ b4 < 192) then
          let n := (b - 240) * 262144 + (b2 - 128) * 4096 + (b3 - 128) * 64 + (b4 - 128)
          if n < 65536 ∨ n > 1114111 then none
          else (utf8DecodeAux fuel rest4).map (fun cs => Char.ofNat n :: cs)
        else none
      | _ => none
    else none

/-- Model of decodeURIComponent as a fallible function. -/
def decodeURIComponentStr (s : String) : Option String :=
  ((percentDecode s.data).bind (fun bs => utf8DecodeAux bs.length bs)).map
    (fun cs => String.mk cs)

/-- Model of encodeURIComponent on strings. -/
def encodeURIComponentStr (s : String) : String :=
  String.mk (encodeURIComponentList s.data)

/-- A URLSearchParams value, modelled as the ordered key-value pairs it
holds.  The serialize/reparse boundary of URLSearchParams is faithful to
the stored pairs, so it is the identity at this level. -/
abbrev URLParams : Type := List (String × String)

/-- URLSearchParams.set: replace the value under the key, or append. -/
def setParam (ps : URLParams) (k v : String) : URLParams :=
  if ps.any (fun p => p.1 = k) then ps.map (fun p => if p.1 = k then (k, v) else p)
  else ps ++ [(k, v)]

/-- URLSearchParams.get: first value under the key, if any. -/
def getParam (ps : URLParams) (k : String) : Option String :=
  (ps.find? (fun p => p.1 = k)).map Prod.snd

/-- The argument object of generateShareableURL, with the component's
default values. -/
structure ShareParams where
  search : String := ""
  genre : String := "all"
  sort : String := "rating-desc"
  view : String := "grid"
  pagination : String := "infinite"
  page : Nat := 1
  deriving DecidableEq

/-- generateShareableURL (useCustomHooks.js part, lines 220-251),
restricted to the query parameters it emits: each key is set only when
the value differs from its default; the search value is trimmed and
percent-encoded, the genre is lowercased, the page is emitted only above
one and only in pages mode. -/
def generateShareableURLParams (p : ShareParams) : URLParams :=
  let u : URLParams := []
  let u := if p.search ≠ "" ∧ trimList p.search.data ≠ [] then
      setParam u "q" (encodeURIComponentStr (String.mk (trimList p.search.data))) else u
  let u := if p.genre ≠ "" ∧ p.genre ≠ "all" then
      setParam u "genre" (String.mk (lowerList p.genre.data)) else u
  let u := if p.sort ≠ "" ∧ p.sort ≠ "rating-desc" then setParam u "sort" p.sort else u
  let u := if p.view ≠ "" ∧ p.view ≠ "grid" then setParam u "view" p.view else u
  let u := if p.pagination ≠ "" ∧ p.pagination ≠ "infinite" then
      setParam u "pagination" p.pagination else u
  let u := if p.page ≠ 0 ∧ p.page > 1 ∧ p.pagination = "pages" then
      setParam u "page" (toString p.page) else u
  u

/-- The partial QueryModel patch produced by parseURLParameters. -/
structure URLPatch where
  search : Option String := none
  genre : Option String := none
  sort : Option String := none
  view : Option String := none
  pagination : Option String := none
  page : Option Int := none
  deriving DecidableEq

/-- The digit run at the head of the list, read as a number; none when
the first char is not a digit. -/
def digitsValAux : List Char → Nat → Nat
  | [], acc => acc
  | c :: rest, acc =>
      if c.isDigit then digitsValAux rest (acc * 10 + (c.toNat - 48)) else acc

/-- Leading digits value for the parseInt model. -/
def digitsVal : List Char → Option Nat
  | [] => none
  | c :: rest => if c.isDigit then some (digitsValAux (c :: rest) 0) else none

/-- Model of parseInt(s, 10): skip leading whitespace, optional sign,
then the leading digit run; none models NaN. -/
def jsParseInt (s : String) : Option Int :=
  match (s.data).dropWhile jsIsSpace with
  | '-' :: rest => (digitsVal rest).map (fun n => -(n : Int))
  | '+' :: rest => (digitsVal rest).map (fun n => (n : Int))
  | rest => (digitsVal rest).map (fun n => (n : Int))

/-- The genre normalization inside parseURLParameters:
charAt(0).toUpperCase() + slice(1).toLowerCase(). -/
def normalizeGenreCase (g : List Char) : List Char :=
  match g with
  | [] => []
  | c :: rest => jsUpperChar c :: lowerList rest

/-- parseURLParameters (useCustomHooks.js part, lines 259-308): each
recognised key is parsed and validated; invalid values are dropped,
except an unknown genre which is coerced to "all". -/
def parseURLParameters (ps : URLParams) (availableGenres : List String) : URLPatch :=
  let search := match getParam ps "q" with
    | none => none
    | some q =>
        if q = "" then none
        else some (match decodeURIComponentStr q with
          | some d => d
          | none => q)
  let genre := match getParam ps "genre" with
    | none => none
    | some g =>
        if g = "" then none
        else
          let n := String.mk (normalizeGenreCase g.data)
          some (if availableGenres.contains n then n else "all")
  let sort := match getParam ps "sort" with
    | none => none
    | some so =>
        if so ≠ "" ∧ ["rating-desc", "rating", "year", "title"].contains so then some so
        else none
  let view := match getParam ps "view" with
    | none => none
    | some v => if v = "list" ∨ v = "grid" then some v else none
  let pagination := match getParam ps "pagination" with
    | none => none
    | some pg => if pg = "pages" ∨ pg = "infinite" then some pg else none
  let page := match getParam ps "page" with
    | none => none
    | some pg =>
        if pg = "" then none
        else match jsParseInt pg with
          | some n => if n > 0 then some n else none
          | none => none
  { search := search, genre := genre, sort := sort, view := view,
    pagination := pagination, page := page }

/-- The functional updater passed to setFavorites by
handleToggleFavorite (MovieExplorer.js lines 179-189 and
src/unnamed/part_003 lines 112-121): remove every occurrence of the id
when present, otherwise append it. -/
def toggleFavorite (movieId : Nat) (prevFavorites : List Nat) : List Nat :=
  if prevFavorites.contains movieId then prevFavorites.filter (fun i => i != movieId)
  else prevFavorites ++ [movieId]

/-- The FavoritesPage variant (FavoritesPage.js lines 41-45): always
filter the id out. -/
def removeFavorite (movieId : Nat) (prevFavorites : List Nat) : List Nat :=
  prevFavorites.filter (fun i => i != movieId)

/-- Outcome of the localStorage read in the useLocalStorage initializer:
a stored parsed value, an absent key, or a thrown error (getItem or
JSON.parse failing). -/
inductive StorageRead where
  | ok (value : Option (List Nat))
  | failure
  deriving DecidableEq

/-- The useState initializer of useLocalStorage (useCustomHooks.js lines
45-56): stored value if present, the initial value when the key is
absent, and the initial value again when the read throws (caught and
logged). -/
def useLocalStorageInit (read : StorageRead) (initialValue : List Nat) : List Nat :=
  match read with
  | .ok (some v) => v
  | .ok none => initialValue
  | .failure => initialValue

/-- The in-memory React state and the persisted cell behind
useLocalStorage, for one key. -/
structure FavState where
  memory : List Nat
  storage : Option (List Nat)
  deriving DecidableEq

/-- The setValue wrapper of useLocalStorage (useCustomHooks.js lines
59-73): compute the new value from the previous state, store it in the
React state, then attempt the persistence write; a throwing write is
caught after the in-memory update, so memory keeps the new value and the
cell keeps its old content. -/
def setValue (writeFails : Bool) (s : FavState) (f : List Nat → List Nat) : FavState :=
  let valueToStore := f s.memory
  { memory := valueToStore,
    storage := if writeFails then s.storage else some valueToStore }

/-- MovieService.getAllMovies with the service state threaded through
explicitly: the method performs no assignment to the instance fields and
returns a copy of the list. -/
def getAllMoviesRun (s : MovieServiceState) : MovieServiceState × List Movie :=
  (s, s.movies)

/-- MovieService.searchMovies with the service state threaded through. -/
def searchMoviesRun (s : MovieServiceState) (q : String) : MovieServiceState × List Movie :=
  (s, searchMovies s q)

/-- MovieService.getFilteredMovies with the service state threaded
through every step, mirroring that each step reads this.movies, builds
fresh arrays (filter, spread copy before sort) and assigns nothing to
the instance. -/
def getFilteredMoviesRun (s : MovieServiceState) (o : FilterOptions) :
    MovieServiceState × List Movie :=
  let r0 := getAllMoviesRun s
  let r1 := if o.search ≠ "" then searchMoviesRun r0.1 o.search else (r0.1, r0.2)
  let r2 := if o.genre ≠ "" ∧ o.genre ≠ "all" then (r1.1, filterByGenre o.genre r1.2)
            else (r1.1, r1.2)
  (r2.1, sortMovies r2.2 o.sort)

/-- The search-membership predicate exactly as the claim words it: the
lowercased title contains the trimmed lowercased term, or some
whitespace-delimited token of the term longer than two chars is a
substring of the lowercased title. -/
def claimSearchKeepWhitespaceTokens (term : String) (m : Movie) : Bool :=
  let t := lowerList (trimList term.data)
  containsSeq (lowerList m.title.data) t ||
    (splitPred jsIsSpace t).any (fun w => w.length > 2 && containsSeq (lowerList m.title.data) w)

/-- The amended search-membership predicate: as above but with the
term's tokens obtained by splitting on single space characters, which is
what the source does. -/
def claimSearchKeepSpaceTokens (term : String) (m : Movie) : Bool :=
  let t := lowerList (trimList term.data)
  containsSeq (lowerList m.title.data) t ||
    (splitOnSpace t).any (fun w => w.length > 2 && containsSeq (lowerList m.title.data) w)

/-! Helper lemmas about the stable sort. -/

/-- Inserting an element that satisfies `p` and precedes (in the `le`
sense) every `p`-element prepends it to the `p`-sublist. -/
theorem insertLe_filter_of_pos {α : Type} (le : α → α → Bool) (p : α → Bool) (x : α)
    (hx : p x = true) (hcond : ∀ y, le x y = false → p y = false) :
    ∀ l : List α, (insertLe le x l).filter p = x :: l.filter p := by
  intro l
  induction l with
  | nil => simp [insertLe, hx]
  | cons y ys ih =>
    by_cases h : le x y = true
    · simp [insertLe, h, List.filter_cons, hx]
    · have hle : le x y = false := by simpa using h
      have hy : p y = false := hcond y hle
      simp [insertLe, hle, List.filter_cons, hy, ih]

/-- Inserting an element that fails `p` leaves the `p`-sublist alone. -/
theorem insertLe_filter_of_neg {α : Type} (le : α → α → Bool) (p : α → Bool) (x : α)
    (hx : p x = false) :
    ∀ l : List α, (insertLe le x l).filter p = l.filter p := by
  intro l
  induction l with
  | nil => simp [insertLe, hx]
  | cons y ys ih =>
    by_cases h : le x y = true
    · simp [insertLe, h, List.filter_cons, hx]
    · have hle : le x y = false := by simpa using h
      simp [insertLe, hle, List.filter_cons, ih]

/-- Stability of the sort: for a predicate that picks out one comparator
equivalence class (whenever `x` passes and `y` is strictly before-able,
`y` fails), the sorted list restricted to the class is the input
restricted to the class. -/
theorem stableSort_filter {α : Type} (le : α → α → Bool) (p : α → Bool)
    (hcond : ∀ x y, p x = true → le x y = false → p y = false) :
    ∀ l : List α, (stableSort le l).filter p = l.filter p := by
  intro l
  induction l with
  | nil => rfl
  | cons x xs ih =>
    by_cases hx : p x = true
    · rw [stableSort, insertLe_filter_of_pos le p x hx (fun y hy => hcond x y hx hy), ih]
      simp [List.filter_cons, hx]
    · have hx0 : p x = false := by simpa using hx
      rw [stableSort, insertLe_filter_of_neg le p x hx0, ih]
      simp [List.filter_cons, hx0]

/-- Claim C6: on the eight-record seed catalog, the pipeline with empty
search, genre "all" and sort key "rating-desc" returns exactly The Dark
Knight (9.0), Inception (8.8), The Matrix (8.7), Interstellar (8.6),
Parasite (8.6), Avengers: Endgame (8.4), Joker (8.4), La La Land (8.0)
(ratings scaled by ten), and the rating-desc sort is stable: records of
any fixed rating keep their relative input order. -/
theorem seed_rating_desc_order_stable :
    ((getFilteredMovies movieServiceSeed
        { search := "", genre := "all", sort := "rating-desc" }).map
        (fun m => (m.title, m.rating)) =
      [("The Dark Knight", 90), ("Inception", 88), ("The Matrix", 87), ("Interstellar", 86),
       ("Parasite", 86), ("Avengers: Endgame", 84), ("Joker", 84), ("La La Land", 80)]) ∧
    ∀ (l : List Movie) (r : Nat),
      (sortMovies l "rating-desc").filter (fun m => m.rating == r) =
        l.filter (fun m => m.rating == r) := by
  constructor
  · rfl
  · intro l r
    have hs : sortMovies l "rating-desc" =
        stableSort (fun a b => decide (b.rating ≤ a.rating)) l := by
      simp [sortMovies]
    rw [hs]
    apply stableSort_filter
    intro x y hx hle
    have hx' : x.rating = r := by simpa using hx
    have hle' : x.rating < y.rating := by simpa using hle
    have hy : y.rating ≠ r := by omega
    simpa using hy

/-- Claim C10: a favorites toggle removes every occurrence of a present
id or appends an absent id exactly once, and both the toggle and the
FavoritesPage removal preserve freedom from duplicates. -/
theorem favorites_toggle_nodup (l : List Nat) (movieId : Nat) (h : l.Nodup) :
    (toggleFavorite movieId l).Nodup ∧ (removeFavorite movieId l).Nodup ∧
    (movieId ∈ l → toggleFavorite movieId l = l.filter (fun i => i != movieId)) ∧
    (movieId ∉ l → toggleFavorite movieId l = l ++ [movieId]) := by
  have hrm : (removeFavorite movieId l).Nodup := by
    simpa [removeFavorite] using h.filter (fun i => i != movieId)
  by_cases hc : movieId ∈ l
  · have ht : toggleFavorite movieId l = l.filter (fun i => i != movieId) := by
      simp [toggleFavorite, List.contains, List.elem_iff, hc]
    rw [ht]
    exact ⟨h.filter _, hrm, fun _ => rfl, fun hna => absurd hc hna⟩
  · have ht : toggleFavorite movieId l = l ++ [movieId] := by
      simp [toggleFavorite, List.contains, List.elem_iff, hc]
    rw [ht]
    refine ⟨?_, hrm, fun hmem => absurd hmem hc, fun _ => rfl⟩
    simp [List.nodup_append, h, List.disjoint_singleton, hc]

/-- Witness for favorites_toggle_nodup at the concrete list [1, 2]. -/
theorem favorites_toggle_nodup_witness :
    ([1, 2] : List Nat).Nodup ∧ (toggleFavorite 2 [1, 2]).Nodup :=
  ⟨by decide, (favorites_toggle_nodup [1, 2] 2 (by decide)).1⟩

/-- Claim C9: the favorites persistence is best effort: a failing or
empty read starts the store at the callers' initial empty list, and a
failing write during a toggle leaves the already-updated in-memory value
in place (no rollback) while the persisted cell keeps its old content. -/
theorem favorites_best_effort :
    useLocalStorageInit StorageRead.failure [] = [] ∧
    useLocalStorageInit (StorageRead.ok none) [] = [] ∧
    ∀ (s : FavState) (movieId : Nat),
      (setValue true s (toggleFavorite movieId)).memory = toggleFavorite movieId s.memory ∧
      (setValue true s (toggleFavorite movieId)).storage = s.storage ∧
      (setValue true s (toggleFavorite movieId)).memory =
        (setValue false s (toggleFavorite movieId)).memory := by
  refine ⟨rfl, rfl, fun s movieId => ⟨rfl, rfl, rfl⟩⟩

/-- Claim C8: the filter/sort pipeline, with the service instance
threaded explicitly, returns the instance unchanged, and its result
depends only on the stored movie list and the arguments, so equal
arguments over an equal catalog give equal results and the stored list
is identical before and after every call. -/
theorem pipeline_pure_and_readonly (s t : MovieServiceState) (o : FilterOptions)
    (h : s.movies = t.movies) :
    (getFilteredMoviesRun s o).1 = s ∧
    (getAllMoviesRun s).1 = s ∧
    (getFilteredMoviesRun s o).2 = (getFilteredMoviesRun t o).2 := by
  have hsearch : ∀ q, searchMovies s q = searchMovies t q := by
    intro q
    simp [searchMovies, getAllMovies, h]
  refine ⟨?_, rfl, ?_⟩
  · simp only [getFilteredMoviesRun, getAllMoviesRun, searchMoviesRun]
    split <;> split <;> rfl
  · by_cases h1 : o.search ≠ "" <;> by_cases h2 : o.genre ≠ "" ∧ o.genre ≠ "all" <;>
      simp [getFilteredMoviesRun, getAllMoviesRun, searchMoviesRun, getAllMovies,
        hsearch, h, h1, h2]

/-- Witness for pipeline_pure_and_readonly: the seed service against a
service with the same movies but a cleared genre cache. -/
theorem pipeline_pure_witness :
    (getFilteredMoviesRun movieServiceSeed
        { search := "dark", genre := "Action", sort := "year" }).1 = movieServiceSeed ∧
    (getFilteredMoviesRun movieServiceSeed
        { search := "dark", genre := "Action", sort := "year" }).2 =
      (getFilteredMoviesRun { movies := fallbackMovies, genres := [] }
        { search := "dark", genre := "Action", sort := "year" }).2 := by
  have h := pipeline_pure_and_readonly movieServiceSeed
    { movies := fallbackMovies, genres := [] }
    { search := "dark", genre := "Action", sort := "year" } rfl
  exact ⟨h.1, h.2.2⟩

/-- The AllMoviesPage state right after mount on the seed catalog: the
filter effect has run once with the initial query values. -/
def seedMountedState : PageState := runFilterEffect movieServiceSeed allMoviesInit

/-- Claim C2 counterexample: on the mounted AllMoviesPage over the seed
catalog, switch to paged mode, move to page 3, then change only the sort
key: the current page drops back to 1 instead of staying at 3. -/
theorem sort_change_resets_page_cex :
    (handlePageChange
        (handlePaginationModeChange movieServiceSeed seedMountedState "pages") 3).currentPage = 3 ∧
    (setSortBy movieServiceSeed
        (handlePageChange
          (handlePaginationModeChange movieServiceSeed seedMountedState "pages") 3)
        "year").currentPage = 1 := by
  constructor <;> rfl

/-- Claim C2 (amended): a sort-key change resets the pagination position
exactly like a search or genre change: in paged mode the current page
becomes 1, in infinite mode the loaded count resets to 12. -/
theorem sort_change_resets_pagination (svc : MovieServiceState) (s : PageState) (key : String) :
    (setSortBy svc s key).currentPage =
      (if s.paginationMode = "infinite" then s.currentPage else 1) ∧
    (setSortBy svc s key).displayCount =
      (if s.paginationMode = "infinite" then 12 else s.displayCount) ∧
    ∀ g q, (setSelectedGenre svc s g).currentPage = (setSortBy svc s key).currentPage ∧
      (setSearchQuery svc s q).currentPage = (setSortBy svc s key).currentPage := by
  by_cases hm : s.paginationMode = "infinite" <;>
    simp [setSortBy, setSelectedGenre, setSearchQuery, runFilterEffect, hm]

/-- Claim C4 counterexample: on the mounted seed state (8 matches,
window 12, infinite mode) a loadMore step sets the loaded count to 24,
not to min(12 + 12, 8) = 8 as the claim states. -/
theorem loadMore_uncapped_cex :
    seedMountedState.paginationMode = "infinite" ∧
    seedMountedState.displayCount = 12 ∧
    seedMountedState.filteredMovies.length = 8 ∧
    (handleLoadMore seedMountedState).displayCount = 24 ∧
    (handleLoadMore seedMountedState).displayCount ≠
      min (seedMountedState.displayCount + 12) seedMountedState.filteredMovies.length := by
  exact ⟨rfl, rfl, rfl, rfl, by decide⟩

/-- Claim C4 (amended): a loadMore step increments the loaded count by
twelve with no cap; the displayed slice is nevertheless capped, its
length after the step being min(previous count + 12, totalMatches) in
infinite mode, and the hasMore flag records whether the match count
exceeds the new window. -/
theorem loadMore_increment_and_displayed_cap (s : PageState) :
    (handleLoadMore s).displayCount = s.displayCount + 12 ∧
    (handleLoadMore s).hasMoreMovies =
      decide (s.filteredMovies.length > s.displayCount + 12) ∧
    (s.paginationMode = "infinite" →
      (displayedMovies (handleLoadMore s)).length =
        min (s.displayCount + 12) s.filteredMovies.length) := by
  refine ⟨rfl, rfl, fun hm => ?_⟩
  simp [displayedMovies, handleLoadMore, hm, List.length_take]

/-- Witness for loadMore_increment_and_displayed_cap on the mounted seed
state, whose displayed list after loadMore has the 8 matched records. -/
theorem loadMore_increment_witness :
    seedMountedState.paginationMode = "infinite" ∧
    (displayedMovies (handleLoadMore seedMountedState)).length = 8 := by
  refine ⟨rfl, ?_⟩
  have h := (loadMore_increment_and_displayed_cap seedMountedState).2.2 rfl
  exact h.trans (by rfl)

/-- The mounted seed page after a search that matches nothing. -/
def emptySearchState : PageState := setSearchQuery movieServiceSeed seedMountedState "zzzz"

/-- Claim C3 counterexample: a search with no matches gives an empty
visible list and zero total matches as claimed, but totalPages is 0, not
the claimed minimum of 1. -/
theorem totalPages_empty_cex :
    emptySearchState.filteredMovies = [] ∧
    displayedMovies emptySearchState = [] ∧
    totalPages emptySearchState = 0 ∧
    totalPages emptySearchState ≠ 1 := by
  exact ⟨rfl, rfl, rfl, by decide⟩

/-- Ceiling division by twelve agrees with the natural-number formula
the embedding uses for Math.ceil. -/
theorem ceil_div_twelve (n : Nat) : ⌈(n : ℚ) / 12⌉ = (((n + 11) / 12 : Nat) : Int) := by
  have hdm := Nat.div_add_mod (n + 11) 12
  have hm : (n + 11) % 12 < 12 := Nat.mod_lt _ (by norm_num)
  have h1 : n ≤ 12 * ((n + 11) / 12) := by omega
  have h2 : 12 * ((n + 11) / 12) < n + 12 := by omega
  have h1q : (n : ℚ) ≤ 12 * (((n + 11) / 12 : Nat) : ℚ) := by exact_mod_cast h1
  have h2q : 12 * (((n + 11) / 12 : Nat) : ℚ) < (n : ℚ) + 12 := by exact_mod_cast h2
  rw [Int.ceil_eq_iff, Int.cast_natCast]
  constructor
  · rw [lt_div_iff₀ (by norm_num : (0 : ℚ) < 12)]
    linarith
  · rw [div_le_iff₀ (by norm_num : (0 : ℚ) < 12)]
    linarith

/-- Claim C3 (amended): totalPages is the ceiling of totalMatches over
the page size with no lower bound, and an empty match set yields an
empty visible list, zero matches and zero total pages, without error. -/
theorem totalPages_ceil_no_minimum (s : PageState) :
    ((totalPages s : Int) = ⌈(s.filteredMovies.length : ℚ) / (moviesPerPage : ℚ)⌉) ∧
    (s.filteredMovies = [] →
      displayedMovies s = [] ∧ s.filteredMovies.length = 0 ∧ totalPages s = 0) := by
  constructor
  · have h := ceil_div_twelve s.filteredMovies.length
    simp only [totalPages, moviesPerPage]
    norm_num
    exact h.symm
  · intro h
    refine ⟨?_, by rw [h]; rfl, by rw [totalPages, h]; rfl⟩
    rw [displayedMovies, h]
    split <;> simp

/-- Witness for totalPages_ceil_no_minimum at the empty-search state. -/
theorem totalPages_ceil_witness :
    displayedMovies emptySearchState = [] ∧ totalPages emptySearchState = 0 := by
  have h := (totalPages_ceil_no_minimum emptySearchState).2 rfl
  exact ⟨h.1, h.2.2⟩

/-- Joining the twelve-wide slices of a list, one slice per page,
reproduces the list. -/
theorem pages_join_aux {α : Type} (k : Nat) :
    ∀ l : List α, (l.length + 11) / 12 = k →
      ((List.range k).map (fun i => (l.drop (i * 12)).take 12)).flatten = l := by
  induction k with
  | zero =>
    intro l h
    have hlen : l.length = 0 := by omega
    have hnil : l = [] := List.length_eq_zero.mp hlen
    subst hnil
    rfl
  | succ k ih =>
    intro l h
    have hdrop : ∀ i : Nat, ((l.drop ((i + 1) * 12)).take 12) =
        (((l.drop 12).drop (i * 12)).take 12) := by
      intro i
      rw [List.drop_drop]
      congr 2
      ring
    have hlen2 : ((l.drop 12).length + 11) / 12 = k := by
      rw [List.length_drop]
      omega
    have ihdrop := ih (l.drop 12) hlen2
    rw [List.range_succ_eq_map]
    rw [List.map_cons, List.map_map, List.flatten_cons]
    have hmap : ((List.range k).map ((fun i => (l.drop (i * 12)).take 12) ∘ Nat.succ)) =
        ((List.range k).map (fun i => ((l.drop 12).drop (i * 12)).take 12)) :=
      List.map_congr_left (fun a _ => hdrop a)
    rw [hmap, ihdrop]
    simp

/-- The paged-mode page state over a given filtered list, at a given
one-based page. -/
def pagedState (l : List Movie) (page : Nat) : PageState :=
  { allMoviesInit with paginationMode := "pages", filteredMovies := l, currentPage := page }

/-- Claim C7: in paged mode the page slices for pages 1 through
totalPages, concatenated, reproduce the full filtered list: every record
exactly once, no duplicates, no omissions. -/
theorem pagination_coverage (l : List Movie) :
    ((List.range (totalPages (pagedState l 1))).map
        (fun i => displayedMovies (pagedState l (i + 1)))).flatten = l := by
  have hdisp : ∀ i : Nat,
      displayedMovies (pagedState l (i + 1)) = (l.drop (i * 12)).take 12 := by
    intro i
    simp [displayedMovies, pagedState, moviesPerPage]
  rw [List.map_congr_left (fun a _ => hdisp a)]
  exact pages_join_aux _ l rfl

/-- Lowercasing never turns a whitespace char into a non-whitespace char
or back. -/
theorem jsIsSpace_jsLowerChar (c : Char) : jsIsSpace (jsLowerChar c) = jsIsSpace c := by
  unfold jsLowerChar
  split <;> rfl

/-- Lowercasing and trimming commute. -/
theorem trimList_lowerList (l : List Char) : trimList (lowerList l) = lowerList (trimList l) := by
  have hpf : (jsIsSpace ∘ jsLowerChar) = jsIsSpace := funext jsIsSpace_jsLowerChar
  simp only [trimList, lowerList, List.dropWhile_map, hpf, ← List.map_reverse]

/-- Claim C5 counterexample: for the term with a tab between the words
batman and matrix, the claim's whitespace-delimited tokenisation keeps
The Matrix (id 4), but the source splits on single spaces only, sees one
13-char token, and rejects every record. -/
theorem search_whitespace_token_cex :
    ((fallbackMovies.filter
        (fun m => claimSearchKeepWhitespaceTokens "batman\tmatrix" m)).map (fun m => m.id) =
      [4]) ∧
    (searchMovies movieServiceSeed "batman\tmatrix").map (fun m => m.id) = [] ∧
    (fallbackMovies.filter
        (fun m => claimSearchKeepSpaceTokens "batman\tmatrix" m)).map (fun m => m.id) = [] := by
  exact ⟨rfl, rfl, rfl⟩

/-- Claim C5 (amended): a record is in the search result iff it is in
the catalog and either the term is empty or whitespace, or the record
passes the membership predicate with the term's tokens obtained by
splitting on single space characters (rather than on all whitespace). -/
theorem search_membership_space_tokens (svc : MovieServiceState) (q : String) (m : Movie) :
    m ∈ searchMovies svc q ↔
      m ∈ svc.movies ∧ (trimList q.data = [] ∨ claimSearchKeepSpaceTokens q m = true) := by
  by_cases h : trimList q.data = []
  · simp [searchMovies, h, getAllMovies]
  · have hq : q ≠ "" := by
      intro hq0
      apply h
      rw [hq0]
      rfl
    have hpred : movieMatchesSearch (trimList (lowerList q.data)) m =
        claimSearchKeepSpaceTokens q m := by
      simp only [movieMatchesSearch, claimSearchKeepSpaceTokens, trimList_lowerList]
      congr 1
      congr 1
      funext w
      exact Bool.and_comm _ _
    simp [searchMovies, h, hq, List.mem_filter, hpred]

/-- Claim C1: the URL codec fails to round-trip the genre Sci-Fi, a
genre of the catalog: encoding lowercases it to sci-fi, and decoding
capitalizes only the first letter, yielding Sci-fi, which is not among
the known genres, so the genre is coerced to all. -/
theorem url_codec_genre_roundtrip_failure :
    "Sci-Fi" ∈ movieServiceSeed.genres ∧
    generateShareableURLParams { genre := "Sci-Fi" } = [("genre", "sci-fi")] ∧
    (parseURLParameters (generateShareableURLParams { genre := "Sci-Fi" })
        movieServiceSeed.genres).genre = some "all" ∧
    (parseURLParameters (generateShareableURLParams { genre := "Sci-Fi" })
        movieServiceSeed.genres).genre ≠ some "Sci-Fi" := by
  exact ⟨by decide, rfl, rfl, by decide⟩

end MovieCatalog
